import Mathlib

/-!
Verification model of the Product Image Fetcher (`src/script.py`).

The pure text-processing parts (`clean_product_name`,
`generate_smart_placeholder`, the loop bodies of `fetch_product_image`,
`validate_image_url` and `fetch_all_images`) are translated directly from
the source.  External effects are abstracted as oracles: each of the four
search strategies is a function from the (cleaned) product name to an
outcome (returned a URL string, returned `None`, or raised an exception),
and the HTTP HEAD capability used by `validate_image_url` is a function
from a URL to an optional response (`none` models a raised transport
failure).  Characters are modelled at the ASCII level (Python `\s`, `\w`,
`\d`, `str.lower`, `str.strip` restricted to ASCII inputs).
-/

/-- ASCII model of Python's `\s` class and of the characters removed by
`str.strip()`: space, tab, newline, carriage return, vertical tab, form feed. -/
def isPySpace (c : Char) : Bool :=
  c == ' ' || c == '\t' || c == '\n' || c == '\r' || c == Char.ofNat 11 || c == Char.ofNat 12

/-- Match a literal pattern (given in lowercase) case-insensitively at the head
of the character list; return the remainder on success. -/
def matchLitCI : List Char → List Char → Option (List Char)
  | [], cs => some cs
  | _ :: _, [] => none
  | p :: ps, c :: cs => if c.toLower == p then matchLitCI ps cs else none

/-- Match one or more characters satisfying `p` (greedy, like `X+` against a
disjoint follower); return the remainder. -/
def matchMany1 (p : Char → Bool) : List Char → Option (List Char)
  | [] => none
  | c :: cs => if p c then some (cs.dropWhile p) else none

/-- Match of the regex alternative `Set Of \d+` followed by `\s+` at the start
of the string (from `clean_product_name`, line 46). -/
def matchQtyPre (cs : List Char) : Option (List Char) :=
  match matchLitCI "set of ".toList cs with
  | none => none
  | some r1 =>
    match matchMany1 Char.isDigit r1 with
    | none => none
    | some r2 => matchMany1 isPySpace r2

/-- Match one size word followed by `\s+`. -/
def matchSizeWord (w : String) (cs : List Char) : Option (List Char) :=
  match matchLitCI w.toList cs with
  | none => none
  | some r => matchMany1 isPySpace r

/-- Match of the regex alternatives `Large|Medium|Small` followed by `\s+`. -/
def matchSizePre (cs : List Char) : Option (List Char) :=
  match matchSizeWord "large" cs with
  | some r => some r
  | none =>
    match matchSizeWord "medium" cs with
    | some r => some r
    | none => matchSizeWord "small" cs

/-- Match of `^(Set Of \d+|Large|Medium|Small)\s+` (case-insensitive);
returns the remainder after the removed prefix when the pattern matches. -/
def preMatch (cs : List Char) : Option (List Char) :=
  match matchQtyPre cs with
  | some r => some r
  | none => matchSizePre cs

/-- `re.sub(r'^(Set Of \d+|Large|Medium|Small)\s+', '', name, flags=re.IGNORECASE)`. -/
def stripPrePat (cs : List Char) : List Char := (preMatch cs).getD cs

/-- The trailing descriptor words of `clean_product_name` (line 47), lowercase. -/
def suffixWords : List String := ["design", "style", "holder", "metal", "sign"]

/-- Working on the reversed string: match one descriptor word (reversed) then
`\s+`; returns the reversed remainder before the removed suffix. -/
def trySufWord (w : String) (rcs : List Char) : Option (List Char) :=
  match matchLitCI w.toList.reverse rcs with
  | none => none
  | some r => matchMany1 isPySpace r

/-- Python's `$` (no `re.MULTILINE`) matches at the end of the string and also
just before one final newline; split that final newline off. -/
def splitTrailingNewline (cs : List Char) : List Char × List Char :=
  match cs.getLast? with
  | some c => if c == '\n' then (cs.dropLast, ['\n']) else (cs, [])
  | none => (cs, [])

/-- Match of `\s+(Design|Style|Holder|Metal|Sign)$` (case-insensitive); at most
one descriptor word can match because the words contain no whitespace. -/
def sufMatch (cs : List Char) : Option (List Char) :=
  let p := splitTrailingNewline cs
  match suffixWords.findSome? (fun w => trySufWord w p.1.reverse) with
  | some rem => some (rem.reverse ++ p.2)
  | none => none

/-- `re.sub(r'\s+(Design|Style|Holder|Metal|Sign)$', '', cleaned, flags=re.IGNORECASE)`. -/
def stripSufPat (cs : List Char) : List Char := (sufMatch cs).getD cs

/-- Python `str.strip()` (ASCII whitespace model). -/
def pyStrip (s : String) : String :=
  String.mk (((s.toList.dropWhile isPySpace).reverse.dropWhile isPySpace).reverse)

/-- `ProductImageFetcher.clean_product_name` (lines 43-48). -/
def clean_product_name (name : String) : String :=
  pyStrip (String.mk (stripSufPat (stripPrePat name.toList)))

/-- Boolean: `pat` occurs at the head of the list. -/
def charsBeginWith : List Char → List Char → Bool
  | [], _ => true
  | _ :: _, [] => false
  | p :: ps, c :: cs => p == c && charsBeginWith ps cs

/-- Boolean: `pat` occurs as a contiguous sublist. -/
def charsContain (pat : List Char) : List Char → Bool
  | [] => pat.isEmpty
  | c :: cs => charsBeginWith pat (c :: cs) || charsContain pat cs

/-- Python's `pat in hay` substring test. -/
def strContains (hay pat : String) : Bool := charsContain pat.toList hay.toList

/-- Python `str.lower()` (ASCII model). -/
def lowerStr (s : String) : String := String.mk (s.toList.map Char.toLower)

/-- ASCII model of the regex class `\w`. -/
def isWordChar (c : Char) : Bool := c.isAlphanum || c == '_'

/-- The regex class `[\s_-]`. -/
def isCollapseChar (c : Char) : Bool := isPySpace c || c == '_' || c == '-'

/-- `re.sub(r'[\s_-]+', '+', text)`: each maximal run of `[\s_-]` characters
becomes a single `+`.  The flag records whether we are inside a run. -/
def collapseRuns : Bool → List Char → List Char
  | _, [] => []
  | inRun, c :: cs =>
    if isCollapseChar c then
      (if inRun then [] else ['+']) ++ collapseRuns true cs
    else c :: collapseRuns false cs

/-- The `text` value of `generate_smart_placeholder` (lines 195-196):
drop characters outside `[\w\s-]`, collapse `[\s_-]+` runs to `+`,
truncate to 25 characters. -/
def placeholder_text (product_name : String) : String :=
  String.mk ((collapseRuns false
    (product_name.toList.filter (fun c => isWordChar c || isPySpace c || c == '-'))).take 25)

/-- UTF-8 encoding of one character (byte values as `Nat`). -/
def utf8Bytes (c : Char) : List Nat :=
  let n := c.toNat
  if n < 128 then [n]
  else if n < 2048 then [192 + n / 64, 128 + n % 64]
  else if n < 65536 then [224 + n / 4096, 128 + n / 64 % 64, 128 + n % 64]
  else [240 + n / 262144, 128 + n / 4096 % 64, 128 + n / 64 % 64, 128 + n % 64]

/-- Uppercase hexadecimal digit, as used by `urllib.parse.quote`. -/
def hexDigitChar (n : Nat) : Char := if n < 10 then Char.ofNat (48 + n) else Char.ofNat (55 + n)

/-- `urllib.parse`'s always-safe bytes: ASCII letters, digits, `_ . - ~`. -/
def isSafeByte (b : Nat) : Bool :=
  (65 ≤ b && b ≤ 90) || (97 ≤ b && b ≤ 122) || (48 ≤ b && b ≤ 57) ||
    b == 95 || b == 46 || b == 45 || b == 126

/-- `urllib.parse.quote_plus` with default arguments: encode to UTF-8, keep
safe bytes, turn spaces into `+`, percent-encode everything else. -/
def quote_plus (s : String) : String :=
  String.mk (((s.toList.map utf8Bytes).flatten.map (fun b =>
    if b == 32 then ['+']
    else if isSafeByte b then [Char.ofNat b]
    else ['%', hexDigitChar (b / 16), hexDigitChar (b % 16)])).flatten)

/-- One entry of the `themes` table of `generate_smart_placeholder`. -/
structure Theme where
  bg : String
  text : String
  icon : String
deriving DecidableEq

/-- The `themes` dict together with the `keywords` dict (lines 199-224), in
Python 3.7+ dict insertion order. -/
def themeTable : List (String × Theme × List String) :=
  [("kitchen", ⟨"2C3E50", "ECF0F1", "🍳"⟩,
      ["mug", "tea", "coffee", "sugar", "dispenser", "jar", "cake", "tin"]),
   ("storage", ⟨"3498DB", "FFFFFF", "📦"⟩,
      ["storage", "box", "crate", "tin", "holder", "container"]),
   ("christmas", ⟨"C0392B", "FFFFFF", "🎄"⟩,
      ["christmas", "star", "stocking", "xmas"]),
   ("toy", ⟨"F39C12", "FFFFFF", "🧸"⟩,
      ["toy", "dolly", "spaceboy", "bubbles", "children"]),
   ("bottle", ⟨"8E44AD", "FFFFFF", "🍼"⟩,
      ["bottle", "water", "hot"]),
   ("home", ⟨"27AE60", "FFFFFF", "🏠"⟩,
      ["door", "wall", "clock", "sign", "hanger"]),
   ("tea", ⟨"16A085", "FFFFFF", "☕"⟩,
      ["tea", "coffee"]),
   ("metal", ⟨"7F8C8D", "FFFFFF", "🔧"⟩,
      ["metal", "sign", "zinc", "wire"])]

/-- The match condition of the theme loop (line 226):
`category in product_lower or any(word in product_lower for word in keywords)`. -/
def categoryMatches (product_lower cat : String) (kws : List String) : Bool :=
  strContains product_lower cat || kws.any (fun w => strContains product_lower w)

/-- `themes['home']`, the default theme (line 211). -/
def homeTheme : Theme := ⟨"27AE60", "FFFFFF", "🏠"⟩

/-- The `for category, style in themes.items(): ... break` loop (lines 214-228). -/
def findThemeGo (product_lower : String) : List (String × Theme × List String) → Theme
  | [] => homeTheme
  | (cat, th, kws) :: rest =>
    if categoryMatches product_lower cat kws then th else findThemeGo product_lower rest

/-- Theme selected for a lowercased product name. -/
def findTheme (product_lower : String) : Theme := findThemeGo product_lower themeTable

/-- The f-string of line 230. -/
def placeholder_url (theme : Theme) (text : String) : String :=
  "https://via.placeholder.com/400x300/" ++ theme.bg ++ "/" ++ theme.text ++
    "?text=" ++ quote_plus text

/-- `ProductImageFetcher.generate_smart_placeholder` (lines 192-230). -/
def generate_smart_placeholder (product_name : String) : String :=
  placeholder_url (findTheme (lowerStr product_name)) (placeholder_text product_name)

/-- Model of a `requests` HEAD response: status code and the value of
`response.headers.get('content-type', '')` (with `none` when the header is
absent, so `getD ""` mirrors the `.get` default). -/
structure HeadResponse where
  status_code : Nat
  content_type : Option String
deriving DecidableEq

/-- `self.image_extensions` (line 41). -/
def image_extensions : List String := [".jpg", ".jpeg", ".png", ".gif", ".webp", ".bmp"]

/-- `any(ext in url.lower() for ext in self.image_extensions)`. -/
def hasImageExt (url : String) : Bool :=
  image_extensions.any (fun ext => strContains (lowerStr url) ext)

/-- `ProductImageFetcher.validate_image_url` (lines 274-285).  The HEAD
capability is an oracle; `none` models a raised transport failure, which the
bare `except` turns into `False`. -/
def validate_image_url (head : String → Option HeadResponse) (url : String) : Bool :=
  match head url with
  | none => false
  | some resp =>
    let content_type := lowerStr (resp.content_type.getD "")
    (resp.status_code == 200) &&
      (strContains content_type "image" || hasImageExt url)

/-- Outcome of one strategy call inside `fetch_product_image`'s `try` block:
a returned URL string, a returned `None`, or a raised exception. -/
inductive SearchOutcome where
  | found (url : String)
  | notFound
  | raised
deriving DecidableEq

/-- External behavior of the four scraping strategies (as functions of the
cleaned name they are called with) and of the HTTP HEAD capability used by
`validate_image_url`. -/
structure Oracles where
  search_duckduckgo_images : String → SearchOutcome
  search_bing_images : String → SearchOutcome
  search_shopping_sites : String → SearchOutcome
  search_direct_product_search : String → SearchOutcome
  head : String → Option HeadResponse

/-- `method_name.lower().replace(' ', '_')` (line 252). -/
def method_source_name (mname : String) : String :=
  String.mk (mname.toList.map (fun c => if c == ' ' then '_' else c.toLower))

/-- The `search_methods` list (lines 241-246), with each method already applied
to the cleaned name. -/
def strategyOutcomes (o : Oracles) (cleaned_name : String) : List (String × SearchOutcome) :=
  [("DuckDuckGo", o.search_duckduckgo_images cleaned_name),
   ("Bing Images", o.search_bing_images cleaned_name),
   ("Shopping Sites", o.search_shopping_sites cleaned_name),
   ("Direct Search", o.search_direct_product_search cleaned_name)]

/-- Python truthiness of the `image_url` variable (`None` and `""` are falsy). -/
def pyTruthy : Option String → Bool
  | none => false
  | some s => !(s == "")

/-- The `for method_name, method in search_methods` loop (lines 248-259),
threading the mutable `image_url` variable.  Returns the value of `image_url`
after the loop together with `some source` when the loop hit `break`.
A raised exception leaves `image_url` at its previous value (`continue`);
a returned `None` overwrites it with `none`; a returned URL overwrites it and,
when truthy and validated, breaks with the method's source name. -/
def loopStrategies (validate : String → Bool) :
    List (String × SearchOutcome) → Option String → Option String × Option String
  | [], image_url => (image_url, none)
  | (mname, out) :: rest, image_url =>
    match out with
    | .raised => loopStrategies validate rest image_url
    | .notFound => loopStrategies validate rest none
    | .found url =>
      if url == "" then loopStrategies validate rest (some url)
      else if validate url then (some url, some (method_source_name mname))
      else loopStrategies validate rest (some url)

/-- The `ProductImage` dataclass (lines 20-25). -/
structure ProductImage where
  name : String
  image_url : String
  source : String
  alt_text : String
deriving DecidableEq

/-- Lines 261-272 of `fetch_product_image`: the placeholder fallback (guarded
by `if not image_url:`, which also fires on an empty string) and the
construction of the returned `ProductImage`.  When the loop broke, `source`
is the breaking method's name; otherwise it keeps its initial value
`"placeholder"` unless `image_url` is falsy, in which case the smart
placeholder is generated from the original (uncleaned) name. -/
def finalize (product_name : String) (res : Option String × Option String) : ProductImage :=
  match res.2 with
  | some src =>
    { name := product_name, image_url := res.1.getD "", source := src,
      alt_text := "Image of " ++ product_name }
  | none =>
    if pyTruthy res.1 then
      { name := product_name, image_url := res.1.getD "", source := "placeholder",
        alt_text := "Image of " ++ product_name }
    else
      { name := product_name, image_url := generate_smart_placeholder product_name,
        source := "smart_placeholder", alt_text := "Image of " ++ product_name }

/-- `ProductImageFetcher.fetch_product_image` (lines 232-272). -/
def fetch_product_image (o : Oracles) (product_name : String) : ProductImage :=
  finalize product_name
    (loopStrategies (validate_image_url o.head)
      (strategyOutcomes o (clean_product_name product_name)) none)

/-- The `except` branch of `fetch_all_images` (lines 307-315). -/
def error_record (product_name : String) : ProductImage :=
  { name := product_name, image_url := generate_smart_placeholder product_name,
    source := "error_placeholder", alt_text := "Placeholder for " ++ product_name }

/-- One iteration of the `fetch_all_images` loop body: `fault` tells whether
the per-product resolution raises an unexpected exception (caught by the
`except Exception` handler); otherwise `fetch_product_image` is called on the
stripped name. -/
def fetch_one (o : Oracles) (fault : String → Bool) (product_name : String) : ProductImage :=
  if fault product_name then error_record product_name
  else fetch_product_image o (pyStrip product_name)

/-- The accumulator loop of `fetch_all_images` (`results.append(...)`). -/
def fetch_all_go (o : Oracles) (fault : String → Bool) :
    List String → List ProductImage → List ProductImage
  | [], results => results
  | n :: rest, results => fetch_all_go o fault rest (results ++ [fetch_one o fault n])

/-- `ProductImageFetcher.fetch_all_images` (lines 287-317); the inter-request
delay has no effect on the produced records and is not modelled. -/
def fetch_all_images (o : Oracles) (fault : String → Bool)
    (product_names : List String) : List ProductImage :=
  fetch_all_go o fault product_names []

/-- A HEAD capability that always raises (every request is a transport failure). -/
def headNone : String → Option HeadResponse := fun _ => none

/-- Oracle where every strategy returns `None` and every HEAD request fails. -/
def o_allfail : Oracles :=
  { search_duckduckgo_images := fun _ => SearchOutcome.notFound,
    search_bing_images := fun _ => SearchOutcome.notFound,
    search_shopping_sites := fun _ => SearchOutcome.notFound,
    search_direct_product_search := fun _ => SearchOutcome.notFound,
    head := headNone }

/-- Oracle where strategies 1-3 return `None`, the fourth strategy returns a
candidate URL, and every HEAD request fails (so validation rejects it). -/
def o_lastRejected : Oracles :=
  { search_duckduckgo_images := fun _ => SearchOutcome.notFound,
    search_bing_images := fun _ => SearchOutcome.notFound,
    search_shopping_sites := fun _ => SearchOutcome.notFound,
    search_direct_product_search := fun _ => SearchOutcome.found "http://example.com/a.png",
    head := headNone }

/-- HEAD capability accepting exactly one good URL with an image content type. -/
def headGoodOnly : String → Option HeadResponse := fun u =>
  if u == "http://b.example.com/good.png" then some ⟨200, some "image/png"⟩ else none

/-- Oracle where strategy 1 returns a candidate that fails validation and
strategy 2 returns a candidate that passes validation. -/
def o_firstRejectedSecondOk : Oracles :=
  { search_duckduckgo_images := fun _ => SearchOutcome.found "http://a.example.com/bad.png",
    search_bing_images := fun _ => SearchOutcome.found "http://b.example.com/good.png",
    search_shopping_sites := fun _ => SearchOutcome.notFound,
    search_direct_product_search := fun _ => SearchOutcome.notFound,
    head := headGoodOnly }

/-- The hypothesis "this strategy call produced no candidate that passes the
Validator": it returned `None`, or it returned a candidate that is empty or
rejected by `validate`. -/
def failsValidation (validate : String → Bool) (out : SearchOutcome) : Prop :=
  out = SearchOutcome.notFound ∨
    ∃ u, out = SearchOutcome.found u ∧ (u = "" ∨ validate u = false)

/-- A HEAD capability answering every request with status 204 and an image
content type. -/
def head204 : String → Option HeadResponse := fun _ => some ⟨204, some "image/png"⟩

lemma fetch_all_go_eq_map (o : Oracles) (fault : String → Bool) :
    ∀ (ns : List String) (acc : List ProductImage),
      fetch_all_go o fault ns acc = acc ++ ns.map (fetch_one o fault) := by
  intro ns
  induction ns with
  | nil => intro acc; simp [fetch_all_go]
  | cons n rest ih => intro acc; simp [fetch_all_go, ih]

lemma fetch_all_images_eq_map (o : Oracles) (fault : String → Bool) (ns : List String) :
    fetch_all_images o fault ns = ns.map (fetch_one o fault) := by
  simp [fetch_all_images, fetch_all_go_eq_map]

lemma loop_skip (validate : String → Bool) (mname : String) (out : SearchOutcome)
    (rest : List (String × SearchOutcome)) (cur : Option String)
    (h : failsValidation validate out) :
    ∃ cur2, loopStrategies validate ((mname, out) :: rest) cur
      = loopStrategies validate rest cur2 := by
  rcases h with h | ⟨u, hout, hu⟩
  · subst h
    exact ⟨none, rfl⟩
  · subst hout
    by_cases h0 : u = ""
    · exact ⟨some u, by simp [loopStrategies, h0]⟩
    · have hv : validate u = false := by
        rcases hu with h0' | hv
        · exact absurd h0' h0
        · exact hv
      exact ⟨some u, by simp [loopStrategies, h0, hv]⟩

lemma loop_break_found (validate : String → Bool) :
    ∀ (ms : List (String × SearchOutcome)) (cur iu : Option String) (s : String),
      loopStrategies validate ms cur = (iu, some s) →
      ∃ u, iu = some u ∧ u ≠ "" ∧ validate u = true ∧
        SearchOutcome.found u ∈ ms.map Prod.snd := by
  intro ms
  induction ms with
  | nil =>
    intro cur iu s h
    simp [loopStrategies] at h
  | cons m rest ih =>
    intro cur iu s h
    obtain ⟨mname, out⟩ := m
    cases out with
    | raised =>
      simp only [loopStrategies] at h
      obtain ⟨u, h1, h2, h3, h4⟩ := ih _ _ _ h
      exact ⟨u, h1, h2, h3, by simp only [List.map_cons, List.mem_cons]; exact Or.inr h4⟩
    | notFound =>
      simp only [loopStrategies] at h
      obtain ⟨u, h1, h2, h3, h4⟩ := ih _ _ _ h
      exact ⟨u, h1, h2, h3, by simp only [List.map_cons, List.mem_cons]; exact Or.inr h4⟩
    | found url =>
      simp only [loopStrategies] at h
      by_cases h0 : url = ""
      · rw [if_pos (by simp [h0])] at h
        obtain ⟨u, h1, h2, h3, h4⟩ := ih _ _ _ h
        exact ⟨u, h1, h2, h3, by simp only [List.map_cons, List.mem_cons]; exact Or.inr h4⟩
      · rw [if_neg (by simp [h0])] at h
        by_cases hv : validate url = true
        · rw [if_pos hv] at h
          rw [Prod.mk.injEq] at h
          exact ⟨url, h.1.symm, h0, hv, by simp⟩
        · rw [if_neg hv] at h
          obtain ⟨u, h1, h2, h3, h4⟩ := ih _ _ _ h
          exact ⟨u, h1, h2, h3, by simp only [List.map_cons, List.mem_cons]; exact Or.inr h4⟩

lemma loop_fst_mem (validate : String → Bool) :
    ∀ (ms : List (String × SearchOutcome)) (cur : Option String) (u : String),
      (loopStrategies validate ms cur).1 = some u →
      cur = some u ∨ SearchOutcome.found u ∈ ms.map Prod.snd := by
  intro ms
  induction ms with
  | nil =>
    intro cur u h
    simp only [loopStrategies] at h
    exact Or.inl h
  | cons m rest ih =>
    intro cur u h
    obtain ⟨mname, out⟩ := m
    have step : ∀ cur2 : Option String,
        (loopStrategies validate rest cur2).1 = some u →
        (cur2 = some u ∨ SearchOutcome.found u ∈ rest.map Prod.snd) →
        cur2 = some u ∨
          SearchOutcome.found u ∈ (((mname, out) :: rest).map Prod.snd) := by
      intro cur2 _ hd
      rcases hd with hd | hd
      · exact Or.inl hd
      · exact Or.inr (by simp only [List.map_cons, List.mem_cons]; exact Or.inr hd)
    cases out with
    | raised =>
      simp only [loopStrategies] at h
      exact step cur h (ih _ _ h)
    | notFound =>
      simp only [loopStrategies] at h
      rcases step none h (ih _ _ h) with h1 | h1
      · exact absurd h1 (by simp)
      · exact Or.inr h1
    | found url =>
      simp only [loopStrategies] at h
      by_cases h0 : url = ""
      · rw [if_pos (by simp [h0])] at h
        rcases step (some url) h (ih _ _ h) with h1 | h1
        · have hu : url = u := Option.some.inj h1
          exact Or.inr (by subst hu; simp)
        · exact Or.inr h1
      · rw [if_neg (by simp [h0])] at h
        by_cases hv : validate url = true
        · rw [if_pos hv] at h
          simp only at h
          have hu : url = u := Option.some.inj h
          exact Or.inr (by subst hu; simp)
        · rw [if_neg hv] at h
          rcases step (some url) h (ih _ _ h) with h1 | h1
          · have hu : url = u := Option.some.inj h1
            exact Or.inr (by subst hu; simp)
          · exact Or.inr h1

lemma placeholder_url_ne_empty (th : Theme) (t : String) : placeholder_url th t ≠ "" := by
  intro h
  have hlen := congrArg String.length h
  have h36 : String.length "https://via.placeholder.com/400x300/" = 36 := rfl
  simp [placeholder_url, String.length_append, h36] at hlen

lemma generate_ne_empty (n : String) : generate_smart_placeholder n ≠ "" :=
  placeholder_url_ne_empty _ _

lemma fetch_product_image_name_fields (o : Oracles) (m : String) :
    (fetch_product_image o m).name = m ∧
    (fetch_product_image o m).alt_text = "Image of " ++ m := by
  unfold fetch_product_image
  rcases h : loopStrategies (validate_image_url o.head)
      (strategyOutcomes o (clean_product_name m)) none with ⟨iu, src?⟩
  cases src? with
  | some s => exact ⟨rfl, rfl⟩
  | none => by_cases hiu : pyTruthy iu = true <;> simp [finalize, hiu]

/-- Claim C1: for every non-empty input list of product names, `fetch_all_images`
returns exactly one `ProductImage` per input name, in input order (the record at
index `i` is the one the loop body produces for input `i`); when the per-product
resolution raises an unexpected fault, that record has source
`"error_placeholder"` and the batch still covers every other input. -/
theorem fetch_all_images_total_coverage (o : Oracles) (fault : String → Bool)
    (names : List String) (_hN : 0 < names.length) :
    (fetch_all_images o fault names).length = names.length ∧
    ∀ i, ∀ hi : i < names.length, ∀ hi' : i < (fetch_all_images o fault names).length,
      (fetch_all_images o fault names).get ⟨i, hi'⟩ = fetch_one o fault (names.get ⟨i, hi⟩) ∧
      (fault (names.get ⟨i, hi⟩) = true →
        ((fetch_all_images o fault names).get ⟨i, hi'⟩).source = "error_placeholder") := by
  refine ⟨by simp [fetch_all_images_eq_map], ?_⟩
  intro i hi hi'
  have hg : (fetch_all_images o fault names).get ⟨i, hi'⟩
      = fetch_one o fault (names.get ⟨i, hi⟩) := by
    simp only [List.get_eq_getElem, fetch_all_images_eq_map, List.getElem_map]
  refine ⟨hg, fun hf => ?_⟩
  rw [hg]
  simp only [List.get_eq_getElem] at hf
  simp [fetch_one, hf, error_record]

theorem fetch_all_images_total_coverage_witness :
    (fetch_all_images o_allfail (fun n => n == " B ") ["A", " B "]).length = 2 ∧
    ((fetch_all_images o_allfail (fun n => n == " B ") ["A", " B "]).get
      ⟨1, by decide⟩).source = "error_placeholder" := by
  have h := fetch_all_images_total_coverage o_allfail (fun n => n == " B ")
    ["A", " B "] (by decide)
  refine ⟨by rw [h.1]; rfl, ?_⟩
  exact (h.2 1 (by decide) (by decide)).2 (by decide)

/-- Claim C2 counterexample: an HTTP behavior under which no strategy produces a
candidate that passes the Validator (strategies 1-3 return `None`, strategy 4
returns a candidate and every HEAD request fails, so validation rejects it),
yet the emitted record's source is `"placeholder"`, not `"smart_placeholder"`,
and its URL is the rejected candidate rather than the Placeholder Generator's
output. -/
theorem all_fail_smart_placeholder_counterexample :
    validate_image_url o_lastRejected.head "http://example.com/a.png" = false ∧
    (fetch_product_image o_lastRejected "Widget").source = "placeholder" ∧
    (fetch_product_image o_lastRejected "Widget").source ≠ "smart_placeholder" ∧
    (fetch_product_image o_lastRejected "Widget").image_url
      ≠ generate_smart_placeholder "Widget" := by
  exact ⟨rfl, rfl, by decide, by decide⟩

/-- Claim C2 (amended): if each of the four strategies either returns `NotFound`
or returns a candidate the Validator rejects, and additionally the fourth
(last-attempted) strategy returns `NotFound`, then the emitted record's source
is `"smart_placeholder"` and its URL is the Placeholder Generator's output for
the original, unnormalized name. -/
theorem all_fail_smart_placeholder_amended (o : Oracles) (n : String)
    (h1 : failsValidation (validate_image_url o.head)
      (o.search_duckduckgo_images (clean_product_name n)))
    (h2 : failsValidation (validate_image_url o.head)
      (o.search_bing_images (clean_product_name n)))
    (h3 : failsValidation (validate_image_url o.head)
      (o.search_shopping_sites (clean_product_name n)))
    (h4 : o.search_direct_product_search (clean_product_name n) = SearchOutcome.notFound) :
    (fetch_product_image o n).source = "smart_placeholder" ∧
    (fetch_product_image o n).image_url = generate_smart_placeholder n := by
  unfold fetch_product_image strategyOutcomes
  obtain ⟨c1, e1⟩ := loop_skip (validate_image_url o.head) "DuckDuckGo"
    (o.search_duckduckgo_images (clean_product_name n)) _ none h1
  rw [e1]
  obtain ⟨c2, e2⟩ := loop_skip (validate_image_url o.head) "Bing Images"
    (o.search_bing_images (clean_product_name n)) _ c1 h2
  rw [e2]
  obtain ⟨c3, e3⟩ := loop_skip (validate_image_url o.head) "Shopping Sites"
    (o.search_shopping_sites (clean_product_name n)) _ c2 h3
  rw [e3, h4]
  simp [loopStrategies, finalize, pyTruthy]

theorem all_fail_smart_placeholder_amended_witness :
    (fetch_product_image o_allfail "Widget").source = "smart_placeholder" ∧
    (fetch_product_image o_allfail "Widget").image_url
      = generate_smart_placeholder "Widget" :=
  all_fail_smart_placeholder_amended o_allfail "Widget"
    (Or.inl rfl) (Or.inl rfl) (Or.inl rfl) rfl

/-- Claim C3 counterexample: the spec's own example name "Storage Tin Vintage
Leaf" contains "storage", yet the generated placeholder uses the kitchen
theme's pair 2C3E50/ECF0F1 (the kitchen keyword "tin" matches first in table
order), not the storage pair 3498DB/FFFFFF. -/
theorem storage_theme_pair_counterexample :
    strContains (lowerStr "Storage Tin Vintage Leaf") "storage" = true ∧
    generate_smart_placeholder "Storage Tin Vintage Leaf" =
      "https://via.placeholder.com/400x300/2C3E50/ECF0F1?text=Storage%2BTin%2BVintage%2BLeaf" ∧
    findTheme (lowerStr "Storage Tin Vintage Leaf") ≠ Theme.mk "3498DB" "FFFFFF" "📦" := by
  exact ⟨rfl, rfl, by decide⟩

/-- Claim C3 (amended): for every product name containing the substring
"storage" (case-insensitively) that does not match the kitchen category (the
entry preceding storage in table iteration order), the Placeholder Generator
uses the storage theme's pair 3498DB/FFFFFF. -/
theorem storage_theme_pair_amended (n : String)
    (hstor : strContains (lowerStr n) "storage" = true)
    (hkitchen : categoryMatches (lowerStr n) "kitchen"
      ["mug", "tea", "coffee", "sugar", "dispenser", "jar", "cake", "tin"] = false) :
    findTheme (lowerStr n) = Theme.mk "3498DB" "FFFFFF" "📦" ∧
    generate_smart_placeholder n =
      placeholder_url (Theme.mk "3498DB" "FFFFFF" "📦") (placeholder_text n) := by
  have hsto : categoryMatches (lowerStr n) "storage"
      ["storage", "box", "crate", "tin", "holder", "container"] = true := by
    simp [categoryMatches, hstor]
  have hf : findTheme (lowerStr n) = Theme.mk "3498DB" "FFFFFF" "📦" := by
    simp only [findTheme, themeTable, findThemeGo, hkitchen, hsto]
    simp
  exact ⟨hf, by rw [generate_smart_placeholder, hf]⟩

theorem storage_theme_pair_amended_witness :
    findTheme (lowerStr "Storage Crate") = Theme.mk "3498DB" "FFFFFF" "📦" ∧
    generate_smart_placeholder "Storage Crate" =
      placeholder_url (Theme.mk "3498DB" "FFFFFF" "📦") (placeholder_text "Storage Crate") :=
  storage_theme_pair_amended "Storage Crate" (by decide) (by decide)

/-- Claim C4: for every product name and every behavior of the strategy and
HEAD oracles, the record emitted by `fetch_product_image` has a non-empty
`image_url`, and that URL is either the Placeholder Generator's output for the
name or a URL discovered by (returned from) one of the four strategies. -/
theorem fetch_product_image_nonempty_url (o : Oracles) (n : String) :
    (fetch_product_image o n).image_url ≠ "" ∧
    ((fetch_product_image o n).image_url = generate_smart_placeholder n ∨
      SearchOutcome.found (fetch_product_image o n).image_url ∈
        (strategyOutcomes o (clean_product_name n)).map Prod.snd) := by
  unfold fetch_product_image
  rcases hres : loopStrategies (validate_image_url o.head)
      (strategyOutcomes o (clean_product_name n)) none with ⟨iu, src?⟩
  cases src? with
  | some s =>
    obtain ⟨u, hu, hne, _, hmem⟩ :=
      loop_break_found (validate_image_url o.head) _ _ _ _ hres
    subst hu
    refine ⟨by simpa [finalize] using hne, Or.inr ?_⟩
    simpa [finalize] using hmem
  | none =>
    by_cases hiu : pyTruthy iu = true
    · cases iu with
      | none => simp [pyTruthy] at hiu
      | some u =>
        have hne : u ≠ "" := by simpa [pyTruthy] using hiu
        have hfst : (loopStrategies (validate_image_url o.head)
            (strategyOutcomes o (clean_product_name n)) none).1 = some u := by
          rw [hres]
        rcases loop_fst_mem (validate_image_url o.head) _ _ _ hfst with h1 | h1
        · exact absurd h1.symm (by simp)
        · refine ⟨by simpa [finalize, hiu] using hne, Or.inr ?_⟩
          simpa [finalize, hiu] using h1
    · have hiu' : pyTruthy iu = false := by
        cases h : pyTruthy iu
        · rfl
        · exact absurd h hiu
      refine ⟨by simp [finalize, hiu', generate_ne_empty], Or.inl ?_⟩
      simp [finalize, hiu']

lemma method_source_name_bing : method_source_name "Bing Images" = "bing_images" := by
  decide

/-- Claim C5: if strategy 1 (DuckDuckGo) returns a candidate the Validator
rejects and strategy 2 (Bing Images) returns a candidate the Validator
accepts, the final record's source is strategy 2's identity `"bing_images"`
and its URL is strategy 2's candidate (each strategy is consulted at most once
per resolution, so the rejected strategy is not re-attempted). -/
theorem validation_rejection_advances (o : Oracles) (n : String) (u1 u2 : String)
    (h1 : o.search_duckduckgo_images (clean_product_name n) = SearchOutcome.found u1)
    (h1e : u1 ≠ "")
    (h1v : validate_image_url o.head u1 = false)
    (h2 : o.search_bing_images (clean_product_name n) = SearchOutcome.found u2)
    (h2e : u2 ≠ "")
    (h2v : validate_image_url o.head u2 = true) :
    (fetch_product_image o n).source = "bing_images" ∧
    (fetch_product_image o n).image_url = u2 := by
  unfold fetch_product_image strategyOutcomes
  rw [h1, h2]
  simp [loopStrategies, finalize, h1e, h1v, h2e, h2v, method_source_name_bing]

theorem validation_rejection_advances_witness :
    (fetch_product_image o_firstRejectedSecondOk "Widget").source = "bing_images" ∧
    (fetch_product_image o_firstRejectedSecondOk "Widget").image_url
      = "http://b.example.com/good.png" :=
  validation_rejection_advances o_firstRejectedSecondOk "Widget"
    "http://a.example.com/bad.png" "http://b.example.com/good.png"
    rfl (by decide) rfl rfl (by decide) rfl

/-- Claim C9: when strategies 1-3 return `NotFound` and the fourth
(last-attempted) strategy returns a candidate the Validator rejects,
`fetch_product_image` emits a record carrying that rejected, unvalidated URL
with source `"placeholder"` (distinct from `"smart_placeholder"` and
`"error_placeholder"`), and the URL is not a Placeholder Generator output for
the name unless the candidate happened to equal it. -/
theorem last_strategy_rejected_placeholder_source (o : Oracles) (n u : String)
    (h1 : o.search_duckduckgo_images (clean_product_name n) = SearchOutcome.notFound)
    (h2 : o.search_bing_images (clean_product_name n) = SearchOutcome.notFound)
    (h3 : o.search_shopping_sites (clean_product_name n) = SearchOutcome.notFound)
    (h4 : o.search_direct_product_search (clean_product_name n) = SearchOutcome.found u)
    (hue : u ≠ "")
    (huv : validate_image_url o.head u = false) :
    (fetch_product_image o n).source = "placeholder" ∧
    (fetch_product_image o n).image_url = u := by
  unfold fetch_product_image strategyOutcomes
  rw [h1, h2, h3, h4]
  simp [loopStrategies, finalize, pyTruthy, hue, huv]

theorem last_strategy_rejected_placeholder_source_witness :
    (fetch_product_image o_lastRejected "Widget").source = "placeholder" ∧
    (fetch_product_image o_lastRejected "Widget").image_url = "http://example.com/a.png" :=
  last_strategy_rejected_placeholder_source o_lastRejected "Widget"
    "http://example.com/a.png" rfl rfl rfl rfl (by decide) rfl

/-- Claim C6: the URL Validator returns true only if the HEAD response has a
success status (the code equates success with 200) and either the declared
content type contains "image" or the URL matches a known image-file extension;
and whenever the HEAD request raises a transport failure it returns false
(the exception never propagates: `validate_image_url` is a total Boolean
function of the oracle). -/
theorem validate_image_url_success_only_if (head : String → Option HeadResponse)
    (url : String) :
    (validate_image_url head url = true →
      ∃ resp, head url = some resp ∧ resp.status_code = 200 ∧
        (strContains (lowerStr (resp.content_type.getD "")) "image" = true ∨
          hasImageExt url = true)) ∧
    (head url = none → validate_image_url head url = false) := by
  cases hh : head url with
  | none =>
    refine ⟨fun h => ?_, fun _ => ?_⟩
    · rw [validate_image_url] at h
      rw [hh] at h
      cases h
    · rw [validate_image_url, hh]
  | some resp =>
    refine ⟨fun h => ⟨resp, rfl, ?_⟩, fun h2 => by cases h2⟩
    rw [validate_image_url, hh] at h
    simp only [Bool.and_eq_true, Bool.or_eq_true, beq_iff_eq] at h
    exact ⟨h.1, h.2⟩

theorem validate_image_url_success_only_if_witness :
    validate_image_url headNone "http://example.com/a.png" = false :=
  (validate_image_url_success_only_if headNone "http://example.com/a.png").2 rfl

/-- Claim C10: the URL Validator treats only status code exactly 200 as
success: for a HEAD response with any other status it returns false, whatever
the content type and the URL's extension. -/
theorem validate_image_url_requires_200 (head : String → Option HeadResponse)
    (url : String) (resp : HeadResponse)
    (hh : head url = some resp) (hs : resp.status_code ≠ 200) :
    validate_image_url head url = false := by
  have hb : (resp.status_code == 200) = false := by
    simpa using hs
  rw [validate_image_url, hh]
  simp [hb]

theorem validate_image_url_requires_200_witness :
    validate_image_url head204 "http://example.com/a.png" = false :=
  validate_image_url_requires_200 head204 "http://example.com/a.png"
    ⟨204, some "image/png"⟩ rfl (by decide)

/-- Claim C7 counterexample: on the `error_placeholder` path the record's
`alt_text` is "Placeholder for " followed by the name, not "Image of "
followed by the name as the claim states for every path. -/
theorem record_name_alt_text_counterexample :
    (fetch_all_images o_allfail (fun n => n == "Widget") ["Widget"]).map
      ProductImage.alt_text = ["Placeholder for Widget"] ∧
    ("Placeholder for Widget" : String) ≠ "Image of Widget" := by
  exact ⟨rfl, by decide⟩

/-- Claim C7 (amended): on the resolved, `smart_placeholder` and rejected-URL
paths the record's `name` is the stripped raw input (the batch driver strips
the name before calling `fetch_product_image`) and its `alt_text` is
"Image of " followed by the stripped input; on the `error_placeholder` path
the `name` is the raw input and the `alt_text` is "Placeholder for " followed
by the raw input. -/
theorem record_name_alt_text_amended (o : Oracles) (fault : String → Bool)
    (names : List String) (i : Nat)
    (hi : i < names.length) (hi' : i < (fetch_all_images o fault names).length) :
    (fault (names.get ⟨i, hi⟩) = false →
      ((fetch_all_images o fault names).get ⟨i, hi'⟩).name = pyStrip (names.get ⟨i, hi⟩) ∧
      ((fetch_all_images o fault names).get ⟨i, hi'⟩).alt_text
        = "Image of " ++ pyStrip (names.get ⟨i, hi⟩)) ∧
    (fault (names.get ⟨i, hi⟩) = true →
      ((fetch_all_images o fault names).get ⟨i, hi'⟩).name = names.get ⟨i, hi⟩ ∧
      ((fetch_all_images o fault names).get ⟨i, hi'⟩).alt_text
        = "Placeholder for " ++ names.get ⟨i, hi⟩) := by
  have hg : (fetch_all_images o fault names).get ⟨i, hi'⟩
      = fetch_one o fault (names.get ⟨i, hi⟩) := by
    simp only [List.get_eq_getElem, fetch_all_images_eq_map, List.getElem_map]
  rw [hg]
  constructor
  · intro hf
    rw [fetch_one, hf]
    simp only [Bool.false_eq_true, if_false]
    exact fetch_product_image_name_fields o (pyStrip (names.get ⟨i, hi⟩))
  · intro hf
    rw [fetch_one, hf]
    simp [error_record]

theorem record_name_alt_text_amended_witness :
    ((fetch_all_images o_allfail (fun n => n == " B ") ["A", " B "]).get
      ⟨0, by decide⟩).alt_text = "Image of A" ∧
    ((fetch_all_images o_allfail (fun n => n == " B ") ["A", " B "]).get
      ⟨1, by decide⟩).alt_text = "Placeholder for  B " := by
  constructor
  · have h := (record_name_alt_text_amended o_allfail (fun n => n == " B ")
      ["A", " B "] 0 (by decide) (by decide)).1 (by decide)
    exact h.2.trans (by decide)
  · have h := (record_name_alt_text_amended o_allfail (fun n => n == " B ")
      ["A", " B "] 1 (by decide) (by decide)).2 (by decide)
    exact h.2

/-- Claim C8 counterexample: the input " Popcorn " matches no leading
quantity/size pattern and no trailing descriptor pattern, yet the Name
Normalizer does not return it unmodified: surrounding whitespace is always
trimmed. -/
theorem clean_product_name_counterexample :
    preMatch " Popcorn ".toList = none ∧
    sufMatch " Popcorn ".toList = none ∧
    clean_product_name " Popcorn " ≠ " Popcorn " := by
  exact ⟨rfl, rfl, by decide⟩

/-- Claim C8 (amended): the Name Normalizer never fails; whenever no leading
quantity/size pattern and no trailing descriptor pattern matches it returns
its input unchanged except for whitespace trimming (so unmodified whenever the
input also has no surrounding whitespace); `clean_product_name` maps
"Popcorn Holder" to "Popcorn" ("Holder" is a stripped suffix), and
re-normalizing that output is a no-op. -/
theorem clean_product_name_amended (s : String)
    (hp : preMatch s.toList = none) (hs : sufMatch s.toList = none) :
    clean_product_name s = pyStrip s ∧
    clean_product_name "Popcorn Holder" = "Popcorn" ∧
    clean_product_name (clean_product_name "Popcorn Holder")
      = clean_product_name "Popcorn Holder" := by
  refine ⟨?_, by decide, by decide⟩
  simp only [clean_product_name, stripPrePat, stripSufPat, hp, Option.getD_none]
  rw [hs]
  rfl

theorem clean_product_name_amended_witness :
    clean_product_name "Widget" = pyStrip "Widget" ∧
    clean_product_name "Popcorn Holder" = "Popcorn" ∧
    clean_product_name (clean_product_name "Popcorn Holder")
      = clean_product_name "Popcorn Holder" :=
  clean_product_name_amended "Widget" rfl rfl
